import Mathlib

/-!
Shallow embedding of the mcp-cli-ent session supervisor (Go sources under
internal/session, internal/mcp, internal/client, internal/daemon) together
with theorems checking the natural-language specification against it.

Conventions of the embedding:
* Go strings are Lean `String`; Go `strings.ToLower` is modelled on the
  ASCII fragment (the only one the browser-indicator matching exercises).
* Go maps carrying JSON data are association lists in declaration order;
  Go map iteration order is unspecified, the model fixes list order, which
  agrees with the source on all single-violation inputs used here.
* External effects (client factory, process liveness, health probes) are
  oracles passed in as explicit environment records.
* Wall-clock fields (start time, last activity) are omitted: no claim
  under consideration depends on them.
-/

namespace McpCli

/-- Does the second character list start with the first one? -/
def startsWithChars : List Char → List Char → Bool
  | [], _ => true
  | _ :: _, [] => false
  | a :: as, b :: bs => a == b && startsWithChars as bs

/-- Does the second character list contain the first one as a contiguous run? -/
def containsChars (sub : List Char) : List Char → Bool
  | [] => startsWithChars sub []
  | c :: rest => startsWithChars sub (c :: rest) || containsChars sub rest

/-- Go strings.Contains s sub. -/
def goContains (s sub : String) : Bool := containsChars sub.data s.data

/-- Go strings.ToLower, on the ASCII fragment (via Char.toLower). -/
def goToLower (s : String) : String := ⟨s.data.map Char.toLower⟩

/-- Go strings.Join parts sep. -/
def goJoin (parts : List String) (sep : String) : String := String.intercalate sep parts

/-- config.SessionConfig (internal/config/types.go). -/
structure SessionConfig where
  type : String
  autoStart : Bool
  timeout : Int
  maxIdle : Int
  healthCheck : Bool
deriving DecidableEq

/-- config.ServerConfig (internal/config/types.go). Env and Headers are
association lists; Enabled is the Go pointer-to-bool. -/
structure ServerConfig where
  enabled : Option Bool
  description : String
  type : String
  url : String
  command : String
  args : List String
  env : List (String × String)
  headers : List (String × String)
  timeout : Int
  session : SessionConfig
  persistent : Bool
deriving DecidableEq

/-- The zero value of config.SessionConfig. -/
def emptySessionConfig : SessionConfig := ⟨"", false, 0, 0, false⟩

/-- The zero value of config.ServerConfig. -/
def emptyServerConfig : ServerConfig :=
  ⟨none, "", "", "", "", [], [], [], 0, emptySessionConfig, false⟩

/-- session.SessionType (internal/session/types.go). -/
inductive SessionType where
  | stateless
  | persistent
  | hybrid
deriving DecidableEq

/-- The browser-automation indicator list of DetectSessionType
(internal/session/detection.go). -/
def browserServers : List String :=
  ["chrome-devtools", "playwright", "selenium", "puppeteer", "webdriver", "browser"]

/-- session.DetectSessionType (internal/session/detection.go, lines 10-52),
branch for branch: the http test first, then the browser-indicator scan,
then the explicit session override, defaulting to hybrid. -/
def DetectSessionType (serverConfig : ServerConfig) : SessionType :=
  if serverConfig.type == "http" || serverConfig.url != "" then
    SessionType.stateless
  else
    let command := goToLower serverConfig.command
    let args := goToLower (goJoin serverConfig.args " ")
    if browserServers.any (fun indicator =>
        goContains command indicator || goContains args indicator) then
      SessionType.persistent
    else if serverConfig.session.type != "" then
      if serverConfig.session.type == "persistent" then SessionType.persistent
      else if serverConfig.session.type == "stateless" then SessionType.stateless
      else if serverConfig.session.type == "hybrid" then SessionType.hybrid
      else SessionType.hybrid
    else SessionType.hybrid

/-- session.RequiresPersistentSession (internal/session/detection.go). -/
def RequiresPersistentSession (c : ServerConfig) : Bool :=
  DetectSessionType c == SessionType.persistent

/-- session.ShouldAutoStart (internal/session/detection.go). -/
def ShouldAutoStart (c : ServerConfig) : Bool :=
  c.session.autoStart || RequiresPersistentSession c

/-- session.GetSessionTimeout (internal/session/detection.go, lines 77-91). -/
def GetSessionTimeout (c : ServerConfig) : Int :=
  if c.session.timeout > 0 then c.session.timeout
  else
    match DetectSessionType c with
    | SessionType.persistent => 300
    | SessionType.hybrid => 180
    | SessionType.stateless => 60

/-- Spec-level predicate: the ServerSpec is an http transport. -/
def IsHttpSpec (c : ServerConfig) : Prop := c.type = "http" ∨ c.url ≠ ""

/-- Spec-level predicate: the command or the joined argv contains one of the
well-known browser-automation substrings, case-insensitively. -/
def HasBrowserIndicator (c : ServerConfig) : Prop :=
  ∃ indicator ∈ browserServers,
    goContains (goToLower c.command) indicator = true ∨
      goContains (goToLower (goJoin c.args " ")) indicator = true

instance (c : ServerConfig) : Decidable (IsHttpSpec c) := by
  unfold IsHttpSpec; infer_instance

instance (c : ServerConfig) : Decidable (HasBrowserIndicator c) := by
  unfold HasBrowserIndicator; infer_instance

/-- A stdio spec naming playwright but overriding the session type to
stateless: the override loses to the browser-indicator scan. -/
def playwrightStatelessConfig : ServerConfig :=
  { emptyServerConfig with
      command := "playwright"
      session := { emptySessionConfig with type := "stateless" } }

/-- A plain stdio spec (no indicator, no override): derives hybrid. -/
def plainStdioConfig : ServerConfig := { emptyServerConfig with command := "uvx" }

/-- A plain stdio spec with an explicit positive session timeout. -/
def timeoutStdioConfig : ServerConfig :=
  { emptyServerConfig with
      command := "uvx"
      session := { emptySessionConfig with timeout := 42 } }

/-- A Go interface value carrying decoded JSON, as stored in
map[string]interface maps (internal/mcp). Numbers are modelled as integers;
no claim under consideration depends on fractional values. -/
inductive GoValue where
  | null
  | bool (b : Bool)
  | num (n : Int)
  | str (s : String)
  | arr (elems : List GoValue)
  | obj (fields : List (String × GoValue))

/-- Go map lookup m[k] on an association list. -/
def lookupField (m : List (String × GoValue)) (k : String) : Option GoValue :=
  (m.find? fun p => p.1 == k).map fun p => p.2

/-- Go type assertion to map[string]interface. -/
def asObj : GoValue → Option (List (String × GoValue))
  | GoValue.obj fields => some fields
  | _ => none

/-- Go type assertion to a JSON array. -/
def asArr : GoValue → Option (List GoValue)
  | GoValue.arr elems => some elems
  | _ => none

/-- Go type assertion to string. -/
def asStr : GoValue → Option String
  | GoValue.str s => some s
  | _ => none

/-- Go type assertion to bool. -/
def asBool : GoValue → Option Bool
  | GoValue.bool b => some b
  | _ => none

/-- mcp.Tool (internal/mcp/types.go): name, description, optional input
schema decoded as a JSON object. -/
structure Tool where
  name : String
  description : String
  inputSchema : Option (List (String × GoValue))

/-- Tool.ValidateArguments (internal/mcp/protocol.go, lines 64-96): returns
the error message the Go function would return, or none for success. A nil
schema, or a schema without a JSON-object properties field, accepts
everything; otherwise every string listed under required must be a key of
args, and when additionalProperties is the JSON boolean false every key of
args must be declared under properties. -/
def Tool.ValidateArguments (t : Tool) (args : List (String × GoValue)) : Option String :=
  match t.inputSchema with
  | none => none
  | some schema =>
    match (lookupField schema "properties").bind asObj with
    | none => none
    | some properties =>
      let requiredErr :=
        match (lookupField schema "required").bind asArr with
        | none => none
        | some required =>
          required.findSome? fun req =>
            match asStr req with
            | none => none
            | some reqName =>
              if (args.find? fun p : String × GoValue => p.1 == reqName).isNone then
                some ("missing required argument: " ++ reqName)
              else none
      match requiredErr with
      | some e => some e
      | none =>
        match (lookupField schema "additionalProperties").bind asBool with
        | some false =>
          args.findSome? fun p : String × GoValue =>
            if (properties.find? fun q : String × GoValue => q.1 == p.1).isNone then
              some ("unknown argument: " ++ p.1)
            else none
        | _ => none

/-- A tool whose schema lists a required name but carries no properties
object at all. -/
def requiredOnlyTool : Tool :=
  ⟨"t", "", some [("required", GoValue.arr [GoValue.str "q"])]⟩

/-- session.SessionStatus (internal/session/types.go), in source iota
order. -/
inductive SessionStatus where
  | inactive
  | starting
  | active
  | error
  | stopping
  | stopped
deriving DecidableEq

/-- Environment oracle for the effects a PersistentSession performs:
client factory outcome, process liveness, process lookup, the health probe
and client close outcome, and the identity of the daemon process. -/
structure PSEnv where
  factoryResult : Option Nat
  factoryErrMsg : String
  isAlive : Int → Bool
  findOk : Bool
  healthOk : Bool
  selfPid : Int
  selfFindOk : Bool
  selfPath : String
  selfArgs : List String
  closeOk : Bool
  closeErrMsg : String

/-- Observable side effects of a PersistentSession operation. -/
inductive PSEvent where
  | factoryCall
  | healthProbe
  | metadataSave
deriving DecidableEq

/-- session.PersistentSession (unnamed/part_003): the fields the lifecycle
operations read or write. The client handle is the identifier produced by
the factory oracle. -/
structure PSession where
  name : String
  config : ServerConfig
  sessionType : SessionType
  status : SessionStatus
  client : Option Nat
  hasFactory : Bool
  pid : Int
  sessionID : String
  processPath : String
  processArgs : List String
  endpoints : List String
  errMsg : String
deriving DecidableEq

/-- PersistentSession.reattachToHTTPSession (unnamed/part_003): fresh
client from the factory, then a tools list probe; on success the session
becomes Active with the new client. -/
def reattachToHTTPSession (env : PSEnv) (s : PSession) :
    Except String Unit × PSession × List PSEvent :=
  match env.factoryResult with
  | none =>
    (Except.error ("failed to create client for reattachment: " ++ env.factoryErrMsg),
      s, [PSEvent.factoryCall])
  | some clientId =>
    if env.healthOk then
      (Except.ok (),
        { s with client := some clientId, status := SessionStatus.active, errMsg := "" },
        [PSEvent.factoryCall, PSEvent.healthProbe])
    else
      (Except.error "health check failed during reattachment", s,
        [PSEvent.factoryCall, PSEvent.healthProbe])

/-- PersistentSession.tryReattach (unnamed/part_003): requires the recorded
process to be alive and inspectable; http sessions reattach through
reattachToHTTPSession, stdio reattachment is declared unsupported. -/
def psTryReattach (env : PSEnv) (s : PSession) :
    Except String Unit × PSession × List PSEvent :=
  if !(env.isAlive s.pid) then
    (Except.error ("process " ++ toString s.pid ++ " is no longer alive"), s, [])
  else if !env.findOk then
    (Except.error "failed to get process info", s, [])
  else if s.config.type == "http" && s.config.url != "" then
    reattachToHTTPSession env s
  else
    (Except.error "reattachment to stdio sessions not yet supported", s, [])

/-- PersistentSession.createNewSession (unnamed/part_003): factory call, own
pid recorded, process info captured best-effort, endpoints for http specs,
then Active plus an asynchronous metadata save. -/
def createNewSession (env : PSEnv) (s : PSession) :
    Except String Unit × PSession × List PSEvent :=
  match env.factoryResult with
  | none =>
    (Except.error ("failed to create client: " ++ env.factoryErrMsg),
      { s with status := SessionStatus.error,
               errMsg := "failed to create client: " ++ env.factoryErrMsg },
      [PSEvent.factoryCall])
  | some clientId =>
    let s1 := { s with pid := env.selfPid }
    let s2 :=
      if env.selfFindOk then
        { s1 with processPath := env.selfPath, processArgs := env.selfArgs }
      else s1
    let s3 :=
      if s.config.type == "http" then { s2 with endpoints := [s.config.url] } else s2
    (Except.ok (),
      { s3 with client := some clientId, status := SessionStatus.active, errMsg := "" },
      [PSEvent.factoryCall, PSEvent.metadataSave])

/-- PersistentSession.Start (unnamed/part_003, lines 272-304): Active is a
silent no-op, Starting refuses, a missing factory refuses; otherwise the
session enters Starting, attempts reattachment when it has an id and a
recorded pid, and falls back to creating a new session. -/
def psStart (env : PSEnv) (s : PSession) :
    Except String Unit × PSession × List PSEvent :=
  if s.status = SessionStatus.active then (Except.ok (), s, [])
  else if s.status = SessionStatus.starting then
    (Except.error "session is already starting", s, [])
  else if !s.hasFactory then (Except.error "client factory not initialized", s, [])
  else
    let s1 := { s with status := SessionStatus.starting, errMsg := "" }
    if s.sessionID ≠ "" ∧ 0 < s.pid then
      match psTryReattach env s1 with
      | (Except.ok _, s2, ev) => (Except.ok (), s2, ev)
      | (Except.error _, _, ev) =>
        match createNewSession env s1 with
        | (r, s3, ev2) => (r, s3, ev ++ ev2)
    else createNewSession env s1

/-- PersistentSession.Stop (unnamed/part_003, lines 445-476): Inactive and
Stopped return immediately; otherwise the session passes through Stopping,
closes its client if any, and ends Stopped with pid 0, empty endpoints and
a metadata save; a close failure leaves the record in Error. -/
def psStop (env : PSEnv) (s : PSession) :
    Except String Unit × PSession × List PSEvent :=
  if s.status = SessionStatus.inactive ∨ s.status = SessionStatus.stopped then
    (Except.ok (), s, [])
  else
    let s1 := { s with status := SessionStatus.stopping }
    match s.client with
    | some _ =>
      if env.closeOk then
        (Except.ok (),
          { s1 with client := none, status := SessionStatus.stopped, pid := 0,
                    endpoints := [], errMsg := "" },
          [PSEvent.metadataSave])
      else
        (Except.error ("failed to close client: " ++ env.closeErrMsg),
          { s1 with status := SessionStatus.error,
                    errMsg := "failed to close client: " ++ env.closeErrMsg },
          [])
    | none =>
      (Except.ok (),
        { s1 with client := none, status := SessionStatus.stopped, pid := 0,
                  endpoints := [], errMsg := "" },
        [PSEvent.metadataSave])

/-- daemon.SessionStatus (internal/daemon/types.go), in source iota order. -/
inductive DaemonStatus where
  | inactive
  | starting
  | active
  | stopping
  | error
deriving DecidableEq

/-- daemon.SessionStatus.String (internal/daemon/types.go). -/
def DaemonStatus.str : DaemonStatus → String
  | DaemonStatus.inactive => "inactive"
  | DaemonStatus.starting => "starting"
  | DaemonStatus.active => "active"
  | DaemonStatus.stopping => "stopping"
  | DaemonStatus.error => "error"

/-- daemon.PersistentSession (internal/daemon/types.go): the fields the
daemon lifecycle operations read. -/
structure DaemonSession where
  serverName : String
  hasClient : Bool
  status : DaemonStatus
  config : ServerConfig
  errMsg : String
  pid : Int
deriving DecidableEq

/-- Lookup in the daemon registry map. -/
def lookupSession (sessions : List (String × DaemonSession)) (name : String) :
    Option DaemonSession :=
  (sessions.find? fun p => p.1 == name).map fun p => p.2

/-- Replace-or-append insertion into the daemon registry map. -/
def insertSession (sessions : List (String × DaemonSession)) (name : String)
    (s : DaemonSession) : List (String × DaemonSession) :=
  if (sessions.find? fun p => p.1 == name).isSome then
    sessions.map fun p => if p.1 == name then (name, s) else p
  else sessions ++ [(name, s)]

/-- Removal from the daemon registry map. -/
def removeSession (sessions : List (String × DaemonSession)) (name : String) :
    List (String × DaemonSession) :=
  sessions.filter fun p => !(p.1 == name)

/-- Daemon.StartSession (unnamed/part_000, lines 372-402): an Active record
refuses with already active, a Starting record refuses with already
starting; otherwise a fresh Starting record is installed (bring-up runs in
the background) and the call returns success. -/
def daemonStartSession (sessions : List (String × DaemonSession))
    (serverName : String) (serverConfig : ServerConfig) :
    Except String (List (String × DaemonSession)) :=
  let fresh : DaemonSession :=
    ⟨serverName, false, DaemonStatus.starting, serverConfig, "", 0⟩
  match lookupSession sessions serverName with
  | some existing =>
    if existing.status = DaemonStatus.active then
      Except.error ("session " ++ serverName ++ " already active")
    else if existing.status = DaemonStatus.starting then
      Except.error ("session " ++ serverName ++ " is already starting")
    else Except.ok (insertSession sessions serverName fresh)
  | none => Except.ok (insertSession sessions serverName fresh)

/-- Daemon.StopSession (unnamed/part_000, lines 445-469): unknown names and
records not in Active are refused with an error; an Active record is
closed and removed from the registry. -/
def daemonStopSession (sessions : List (String × DaemonSession))
    (serverName : String) : Except String (List (String × DaemonSession)) :=
  match lookupSession sessions serverName with
  | none => Except.error ("session " ++ serverName ++ " not found")
  | some s =>
    if s.status ≠ DaemonStatus.active then
      Except.error ("session " ++ serverName ++ " is not active")
    else Except.ok (removeSession sessions serverName)

/-- Daemon.GetSession (unnamed/part_000): only Active records are handed
out. -/
def daemonGetSession (sessions : List (String × DaemonSession))
    (serverName : String) : Except String DaemonSession :=
  match lookupSession sessions serverName with
  | none => Except.error ("session " ++ serverName ++ " not found")
  | some s =>
    if s.status ≠ DaemonStatus.active then
      Except.error ("session " ++ serverName ++ " is not active (status: " ++
        s.status.str ++ ")")
    else Except.ok s

/-- One JSON-RPC request written to a transport of a stdio or http client:
the integer id, the method, and for tools calls the tool name and the
argument map forwarded verbatim. -/
structure TransportWrite where
  id : Nat
  method : String
  toolName : String
  args : List (String × GoValue)

/-- Daemon.CallTool (unnamed/part_000, lines 511-530) composed with
StdioClient.CallTool (internal/client/stdio.go): after the registry lookup
the argument map is forwarded verbatim as the tools call request with the
fixed id 2 — no argument validation happens on this path, and the returned
list is exactly what reaches the transport. -/
def daemonCallTool (sessions : List (String × DaemonSession))
    (serverName toolName : String) (args : List (String × GoValue)) :
    Except String (List TransportWrite) :=
  match daemonGetSession sessions serverName with
  | Except.error e => Except.error e
  | Except.ok _ => Except.ok [⟨2, "tools/call", toolName, args⟩]

/-- An environment oracle in which every external effect fails; sufficient
for operations that must not touch the environment at all. -/
def trivialEnv : PSEnv :=
  ⟨none, "boom", fun _ => false, false, false, 0, false, "", [], false, "closefail"⟩

/-- A PersistentSession record currently Active with client handle 7. -/
def activePSession : PSession :=
  ⟨"x", plainStdioConfig, SessionType.hybrid, SessionStatus.active, some 7, true,
    0, "x-id", "", [], [], ""⟩

/-- A PersistentSession record still Inactive. -/
def inactivePSession : PSession :=
  ⟨"x", plainStdioConfig, SessionType.hybrid, SessionStatus.inactive, none, true,
    0, "x-id", "", [], [], ""⟩

/-- A daemon registry holding one Active record for server x. -/
def daemonActiveX : List (String × DaemonSession) :=
  [("x", ⟨"x", true, DaemonStatus.active, plainStdioConfig, "", 0⟩)]

/-- A daemon registry holding one Inactive record for server x. -/
def daemonInactiveX : List (String × DaemonSession) :=
  [("x", ⟨"x", false, DaemonStatus.inactive, plainStdioConfig, "", 0⟩)]

/-- The S6 schema of the specification: properties declaring q, required
listing q, additionalProperties false. -/
def schemaS6 : List (String × GoValue) :=
  [("required", GoValue.arr [GoValue.str "q"]),
   ("additionalProperties", GoValue.bool false),
   ("properties", GoValue.obj [("q", GoValue.obj [])])]

/-- The S6 tool descriptor. -/
def toolS6 : Tool := ⟨"t", "", some schemaS6⟩

/-- Arguments omitting the required name q. -/
def argsEmpty : List (String × GoValue) := []

/-- Arguments satisfying the S6 schema. -/
def argsQ : List (String × GoValue) := [("q", GoValue.str "x")]

/-- Arguments carrying an undeclared extra key. -/
def argsQExtra : List (String × GoValue) :=
  [("q", GoValue.str "x"), ("extra", GoValue.num 1)]

/-- A daemon registry holding one Active record for server srv. -/
def daemonWithActiveSrv : List (String × DaemonSession) :=
  [("srv", ⟨"srv", true, DaemonStatus.active, plainStdioConfig, "", 0⟩)]

/-- The request-emitting operations of StdioClient
(internal/client/stdio.go): each sends exactly one JSON-RPC request line
through sendRequest, serialised under the client mutex. -/
inductive StdioOp where
  | initRequest
  | listToolsOp
  | callToolOp (name : String) (args : List (String × GoValue))
  | listResourcesOp
  | createMessageOp
  | requestInputOp
  | listRootsOp

/-- The integer id StdioClient passes to NewRequest for each operation:
the ids are hard-coded per method, not drawn from a counter. -/
def requestIdOf : StdioOp → Nat
  | StdioOp.initRequest => 0
  | StdioOp.listToolsOp => 1
  | StdioOp.callToolOp _ _ => 2
  | StdioOp.listResourcesOp => 3
  | StdioOp.createMessageOp => 0
  | StdioOp.requestInputOp => 0
  | StdioOp.listRootsOp => 0

/-- The JSON-RPC method string of each StdioClient operation. -/
def requestMethodOf : StdioOp → String
  | StdioOp.initRequest => "initialize"
  | StdioOp.listToolsOp => "tools/list"
  | StdioOp.callToolOp _ _ => "tools/call"
  | StdioOp.listResourcesOp => "resources/list"
  | StdioOp.createMessageOp => "sampling/createMessage"
  | StdioOp.requestInputOp => "elicitation/requestInput"
  | StdioOp.listRootsOp => "roots/list"

/-- The sequence of request ids observed on the transport of one worker
for a serialised stream of operations. -/
def idTrace (ops : List StdioOp) : List Nat := ops.map requestIdOf

/-- session.StatelessSession (unnamed/part_003, lines 13-96): the fields
its lifecycle operations read. -/
structure SLSession where
  name : String
  config : ServerConfig
  sessionType : SessionType
  status : SessionStatus

/-- session.NewStatelessSession: constructed directly in status Active. -/
def NewStatelessSession (name : String) (cfg : ServerConfig) : SLSession :=
  ⟨name, cfg, SessionType.stateless, SessionStatus.active⟩

/-- StatelessSession.Start: a no-op returning nil. -/
def slStart (s : SLSession) : Except String Unit × SLSession := (Except.ok (), s)

/-- StatelessSession.Stop: a no-op returning nil. -/
def slStop (s : SLSession) : Except String Unit × SLSession := (Except.ok (), s)

/-- StatelessSession.Restart: a no-op returning nil. -/
def slRestart (s : SLSession) : Except String Unit × SLSession := (Except.ok (), s)

/-- The lifecycle operations of a stateless session. -/
inductive SLOp where
  | startOp
  | stopOp
  | restartOp

/-- Dispatch one lifecycle operation on a stateless session. -/
def slStep (s : SLSession) : SLOp → Except String Unit × SLSession
  | SLOp.startOp => slStart s
  | SLOp.stopOp => slStop s
  | SLOp.restartOp => slRestart s

/-- Run a sequence of lifecycle operations, collecting the results. -/
def slRun : SLSession → List SLOp → SLSession × List (Except String Unit)
  | s, [] => (s, [])
  | s, op :: rest =>
    let step := slStep s op
    let tail := slRun step.2 rest
    (tail.1, step.1 :: tail.2)

/-- session.SessionInfo (internal/session/types.go): the on-disk metadata
record, minus the wall-clock and connection-info fields no claim uses. -/
structure SessionInfoM where
  sessionID : String
  name : String
  type : SessionType
  status : SessionStatus
  pid : Int
  processPath : String
  processArgs : List String
  endpoints : List String
  errMsg : String
  config : ServerConfig
deriving DecidableEq

/-- The sessions directory content: parsed records keyed by filename.
All FileStore operations address files inside the one sessions directory,
so the model works directory-relative. -/
abbrev Store := List (String × SessionInfoM)

/-- FileStore.sessionFilename (internal/session/filestore.go): the file
for a session id. -/
def sessionFilename (sessionID : String) : String := sessionID ++ ".json"

/-- Read one file of the sessions directory. -/
def storeLookup (st : Store) (filename : String) : Option SessionInfoM :=
  (st.find? fun p => p.1 == filename).map fun p => p.2

/-- Write one file of the sessions directory, replacing an existing one. -/
def storeWrite (st : Store) (filename : String) (info : SessionInfoM) : Store :=
  if (st.find? fun p => p.1 == filename).isSome then
    st.map fun p => if p.1 == filename then (filename, info) else p
  else st ++ [(filename, info)]

/-- Remove one file of the sessions directory. -/
def storeRemove (st : Store) (filename : String) : Store :=
  st.filter fun p => !(p.1 == filename)

/-- FileStore.SaveSession (internal/session/filestore.go, lines 29-45).
The source computes the filename as sessionFilename(sessionInfo.Name),
passing the server name where sessionFilename expects a session id. -/
def SaveSession (st : Store) (info : SessionInfoM) : Store :=
  storeWrite st (sessionFilename info.name) info

/-- FileStore.LoadSession (internal/session/filestore.go, lines 48-65):
reads sessionFilename(sessionID). -/
def LoadSession (st : Store) (sessionID : String) : Except String SessionInfoM :=
  match storeLookup st (sessionFilename sessionID) with
  | none => Except.error ("session file not found: " ++ sessionID)
  | some info => Except.ok info

/-- FileStore.ListSessions: every parseable json file of the directory. -/
def ListSessions (st : Store) : List SessionInfoM := st.map fun p => p.2

/-- FileStore.LoadSessionByName: exact filename match on the server name
first, then a scan of all session files comparing the Name field. -/
def LoadSessionByName (st : Store) (serverName : String) :
    Except String SessionInfoM :=
  match LoadSession st serverName with
  | Except.ok info => Except.ok info
  | Except.error _ =>
    match (ListSessions st).find? fun i => i.name == serverName with
    | some info => Except.ok info
    | none => Except.error ("session not found: " ++ serverName)

/-- FileStore.DeleteSession: removes sessionFilename(sessionID); a missing
file is already-deleted success. -/
def DeleteSession (st : Store) (sessionID : String) : Store :=
  storeRemove st (sessionFilename sessionID)

/-- A metadata record whose session id differs from the server name, as
GenerateSessionID always produces. -/
def infoX : SessionInfoM :=
  ⟨"x-2026-01-30-12-00-00-ab12cd", "x", SessionType.persistent,
    SessionStatus.stopped, 0, "", [], [], "", plainStdioConfig⟩

/-- Environment oracle for FileStore validation: process liveness and
process-executable lookup. -/
structure FSEnv where
  isAlive : Int → Bool
  procPath : Int → Option String

/-- Go filepath.Base on slash-separated paths. -/
def filepathBase (path : String) : String :=
  if path = "" then "."
  else
    match ((path.splitOn "/").filter fun t => t ≠ "").getLast? with
    | some t => t
    | none => "/"

/-- The browser-adjacent executable allow-list of processesCompatible
(internal/session/filestore.go). -/
def browserProcesses : List String :=
  ["chrome", "chromium", "google-chrome", "msedge", "node"]

/-- FileStore.processesCompatible: exact match, or both basenames on the
browser allow-list. -/
def processesCompatible (expected actual : String) : Bool :=
  expected == actual ||
    (browserProcesses.contains (filepathBase expected) &&
      browserProcesses.contains (filepathBase actual))

/-- FileStore.ValidateSession (internal/session/filestore.go, lines
196-230): name and session id must be nonempty; an Active record with a
positive pid must refer to a live process whose executable is compatible
with the recorded one. -/
def ValidateSession (env : FSEnv) (info : SessionInfoM) : Except String Unit :=
  if info.name = "" then Except.error "session name is required"
  else if info.sessionID = "" then Except.error "session ID is required"
  else if info.status = SessionStatus.active ∧ 0 < info.pid then
    if !(env.isAlive info.pid) then
      Except.error ("session process (PID " ++ toString info.pid ++
        ") is no longer alive")
    else
      match env.procPath info.pid with
      | none => Except.error "failed to get process info"
      | some actual =>
        if info.processPath ≠ "" ∧ processesCompatible info.processPath actual = false then
          Except.error ("process executable mismatch: expected " ++
            info.processPath ++ ", got " ++ actual)
        else Except.ok ()
  else Except.ok ()

/-- FileStore.FindExistingSession (internal/session/filestore.go, lines
255-273): load by name, validate; an invalid record is deleted (by its
session id) and reported as an error; a valid one is returned with the
store untouched. -/
def FindExistingSession (env : FSEnv) (st : Store) (serverName : String) :
    Except String SessionInfoM × Store :=
  match LoadSessionByName st serverName with
  | Except.error e => (Except.error e, st)
  | Except.ok info =>
    match ValidateSession env info with
    | Except.error e =>
      (Except.error ("existing session is invalid: " ++ e),
        DeleteSession st info.sessionID)
    | Except.ok _ => (Except.ok info, st)

/-- Manager.configMatches (unnamed/part_004, lines 344-369): http specs
match on the URL when both declare type http; stdio specs match on equal
command and element-wise equal args when both commands are nonempty;
everything else mismatches. -/
def configMatches (existing incoming : ServerConfig) : Bool :=
  if existing.type == "http" && incoming.type == "http" then
    existing.url == incoming.url
  else if existing.command != "" && incoming.command != "" then
    if existing.command != incoming.command then false
    else if existing.args.length != incoming.args.length then false
    else existing.args == incoming.args
  else false

/-- session.LoadPersistentSession (unnamed/part_003): rebuild a
PersistentSession record from stored metadata; the client starts nil and
the factory is supplied by the manager. -/
def LoadPersistentSessionM (info : SessionInfoM) : PSession :=
  ⟨info.name, info.config, info.type, info.status, none, true, info.pid,
    info.sessionID, info.processPath, info.processArgs, info.endpoints,
    info.errMsg⟩

/-- Manager.tryReattachSession (unnamed/part_004, lines 318-341): find and
validate the on-disk record, require the config to match, then load the
stored session and start it (which attempts the actual reattachment). On
a config mismatch the call fails with an error and the store is left as
FindExistingSession left it. -/
def tryReattachSession (fsenv : FSEnv) (psenv : PSEnv) (st : Store)
    (serverName : String) (cfg : ServerConfig) :
    Except String PSession × Store × List PSEvent :=
  match FindExistingSession fsenv st serverName with
  | (Except.error e, st1) => (Except.error e, st1, [])
  | (Except.ok info, st1) =>
    if !(configMatches info.config cfg) then
      (Except.error "server configuration mismatch", st1, [])
    else
      match psStart psenv (LoadPersistentSessionM info) with
      | (Except.ok _, s2, ev) => (Except.ok s2, st1, ev)
      | (Except.error e, _, ev) =>
        (Except.error ("failed to start reattached session: " ++ e), st1, ev)

/-- A session held by the manager: persistent (also hybrid) or stateless. -/
inductive MSession where
  | persistentS (s : PSession)
  | statelessS (s : SLSession)

/-- The manager state: in-memory sessions plus the sessions directory. -/
structure MState where
  sessions : List (String × MSession)
  store : Store

/-- Lookup in the manager session map. -/
def lookupMSession (l : List (String × MSession)) (name : String) :
    Option MSession :=
  (l.find? fun p => p.1 == name).map fun p => p.2

/-- Replace-or-append insertion into the manager session map. -/
def insertMSession (l : List (String × MSession)) (name : String)
    (s : MSession) : List (String × MSession) :=
  if (l.find? fun p => p.1 == name).isSome then
    l.map fun p => if p.1 == name then (name, s) else p
  else l ++ [(name, s)]

/-- PersistentSession.GetInfo (unnamed/part_003): the metadata projection
of a session record. -/
def psGetInfo (s : PSession) : SessionInfoM :=
  ⟨s.sessionID, s.name, s.sessionType, s.status, s.pid, s.processPath,
    s.processArgs, s.endpoints, s.errMsg, s.config⟩

/-- Manager.saveSession (unnamed/part_004): persistent sessions are
written under the server name plus .json; stateless sessions are not
persisted. -/
def managerSaveSession (st : Store) (s : MSession) : Store :=
  match s with
  | MSession.persistentS ps => storeWrite st (ps.name ++ ".json") (psGetInfo ps)
  | MSession.statelessS _ => st

/-- session.NewPersistentSessionWithFileStore (unnamed/part_003): fresh
Inactive record with a generated session id. -/
def NewPersistentSessionM (name : String) (cfg : ServerConfig)
    (sessionID : String) : PSession :=
  ⟨name, cfg, DetectSessionType cfg, SessionStatus.inactive, none, true, 0,
    sessionID, "", [], [], ""⟩

/-- The tail of Manager.GetSession (unnamed/part_004): create a fresh
session of the derived kind, auto-start persistent and hybrid kinds when
configured, insert it into the map and save its metadata. -/
def managerCreateNew (psenv : PSEnv) (newSessionID : String)
    (sessions : List (String × MSession)) (st1 : Store)
    (serverName : String) (cfg : ServerConfig) : Except String MSession × MState :=
  match DetectSessionType cfg with
  | SessionType.stateless =>
    let s := MSession.statelessS (NewStatelessSession serverName cfg)
    (Except.ok s, ⟨insertMSession sessions serverName s, managerSaveSession st1 s⟩)
  | _ =>
    let ps := NewPersistentSessionM serverName cfg newSessionID
    if ShouldAutoStart cfg then
      match psStart psenv ps with
      | (Except.error e, _, _) =>
        (Except.error ("failed to auto-start persistent session: " ++ e),
          ⟨sessions, st1⟩)
      | (Except.ok _, ps1, _) =>
        let s := MSession.persistentS ps1
        (Except.ok s,
          ⟨insertMSession sessions serverName s, managerSaveSession st1 s⟩)
    else
      let s := MSession.persistentS ps
      (Except.ok s,
        ⟨insertMSession sessions serverName s, managerSaveSession st1 s⟩)

/-- Manager.GetSession (unnamed/part_004, lines 59-118): an in-memory
session wins; otherwise persistent and hybrid kinds first attempt
reattachment to on-disk metadata, and on any reattachment failure the call
falls through to fresh creation. -/
def managerGetSession (fsenv : FSEnv) (psenv : PSEnv) (newSessionID : String)
    (m : MState) (serverName : String) (cfg : ServerConfig) :
    Except String MSession × MState :=
  match lookupMSession m.sessions serverName with
  | some s => (Except.ok s, m)
  | none =>
    let sessionType := DetectSessionType cfg
    if sessionType = SessionType.persistent ∨ sessionType = SessionType.hybrid then
      match tryReattachSession fsenv psenv m.store serverName cfg with
      | (Except.ok ps, st1, _) =>
        let s := MSession.persistentS ps
        (Except.ok s, ⟨insertMSession m.sessions serverName s, st1⟩)
      | (Except.error _, st1, _) =>
        managerCreateNew psenv newSessionID m.sessions st1 serverName cfg
    else
      managerCreateNew psenv newSessionID m.sessions m.store serverName cfg

/-- A validated stdio metadata record for server z with command a. -/
def storedInfoZ : SessionInfoM :=
  ⟨"z-id-123", "z", SessionType.hybrid, SessionStatus.stopped, 0, "", [], [],
    "", { emptyServerConfig with command := "a" }⟩

/-- A sessions directory holding only the record for z. -/
def storeZ : Store := [("z.json", storedInfoZ)]

/-- An incoming spec for z whose command differs from the stored one. -/
def cfgB : ServerConfig := { emptyServerConfig with command := "b" }

/-- An environment in which no recorded process is alive. -/
def fsenvDead : FSEnv := ⟨fun _ => false, fun _ => none⟩

lemma isHttpSpec_iff (c : ServerConfig) :
    (c.type == "http" || c.url != "") = true ↔ IsHttpSpec c := by
  simp [IsHttpSpec]

lemma hasBrowserIndicator_iff (c : ServerConfig) :
    (browserServers.any fun indicator =>
        goContains (goToLower c.command) indicator ||
          goContains (goToLower (goJoin c.args " ")) indicator) = true ↔
      HasBrowserIndicator c := by
  simp [HasBrowserIndicator, List.any_eq_true]

/-- Claim C2 (amended): derivation precedence of DetectSessionType. An http
spec always derives stateless and a stdio spec with a browser-automation
indicator always derives persistent, both regardless of the session
override; the explicit override decides only for the remaining stdio specs,
and everything else derives hybrid. -/
theorem C2_detect_precedence (c : ServerConfig) :
    (IsHttpSpec c → DetectSessionType c = SessionType.stateless) ∧
    (¬ IsHttpSpec c → HasBrowserIndicator c →
      DetectSessionType c = SessionType.persistent) ∧
    (¬ IsHttpSpec c → ¬ HasBrowserIndicator c →
      ((c.session.type = "persistent" → DetectSessionType c = SessionType.persistent) ∧
       (c.session.type = "stateless" → DetectSessionType c = SessionType.stateless) ∧
       (c.session.type = "hybrid" → DetectSessionType c = SessionType.hybrid) ∧
       (c.session.type ≠ "persistent" → c.session.type ≠ "stateless" →
         c.session.type ≠ "hybrid" → DetectSessionType c = SessionType.hybrid))) := by
  have hh := isHttpSpec_iff c
  have hb := hasBrowserIndicator_iff c
  refine ⟨fun h1 => ?_, fun h1 h2 => ?_, fun h1 h2 => ?_⟩
  · simp only [DetectSessionType]
    rw [if_pos (hh.mpr h1)]
  · simp only [DetectSessionType]
    rw [if_neg fun hc => h1 (hh.mp hc), if_pos (hb.mpr h2)]
  · simp only [DetectSessionType]
    rw [if_neg fun hc => h1 (hh.mp hc), if_neg fun hc => h2 (hb.mp hc)]
    refine ⟨fun hp => ?_, fun hs => ?_, fun hy => ?_, fun hnp hns hny => ?_⟩
    · simp [hp]
    · simp [hs]
    · simp [hy]
    · by_cases he : c.session.type = ""
      · simp [he]
      · simp [he, hnp, hns, hny]

/-- Claim C2, counterexample to the claim as stated: a stdio spec whose
command contains the browser indicator playwright and whose session
override is stateless derives persistent, so the explicit override does
not always win. -/
theorem C2_counterexample :
    DetectSessionType playwrightStatelessConfig = SessionType.persistent ∧
    SessionType.persistent ≠ SessionType.stateless := by decide

/-- Witness for C2_detect_precedence at a concrete spec. -/
theorem C2_detect_precedence_witness :
    ¬ IsHttpSpec playwrightStatelessConfig ∧
      HasBrowserIndicator playwrightStatelessConfig ∧
      DetectSessionType playwrightStatelessConfig = SessionType.persistent :=
  ⟨by decide, by decide,
    (C2_detect_precedence playwrightStatelessConfig).2.1 (by decide) (by decide)⟩

/-- Claim C8: when the session override carries no positive timeout the
derived idle timeout is 300 s for persistent, 180 s for hybrid and 60 s for
stateless kinds; a positive session timeout is returned unchanged. -/
theorem C8_timeout_defaults (c : ServerConfig) :
    (c.session.timeout ≤ 0 →
      (DetectSessionType c = SessionType.persistent → GetSessionTimeout c = 300) ∧
      (DetectSessionType c = SessionType.hybrid → GetSessionTimeout c = 180) ∧
      (DetectSessionType c = SessionType.stateless → GetSessionTimeout c = 60)) ∧
    (0 < c.session.timeout → GetSessionTimeout c = c.session.timeout) := by
  constructor
  · intro hle
    have hnot : ¬ c.session.timeout > 0 := by omega
    refine ⟨fun hd => ?_, fun hd => ?_, fun hd => ?_⟩ <;>
      simp [GetSessionTimeout, if_neg hnot, hd]
  · intro hpos
    simp [GetSessionTimeout, if_pos hpos]

/-- Witness for C8_timeout_defaults at concrete specs. -/
theorem C8_timeout_defaults_witness :
    GetSessionTimeout plainStdioConfig = 180 ∧
      GetSessionTimeout timeoutStdioConfig = 42 :=
  ⟨((C8_timeout_defaults plainStdioConfig).1 (by decide)).2.1 (by decide),
    (C8_timeout_defaults timeoutStdioConfig).2 (by decide)⟩

/-- Claim C9: validation is vacuous without a properties object. For every
tool whose input schema is nil, or whose schema has no properties field
that is a JSON object, ValidateArguments accepts every arguments map, even
when the schema lists required names. -/
theorem C9_validation_vacuous_without_properties (t : Tool)
    (args : List (String × GoValue))
    (h : t.inputSchema = none ∨
      ∃ schema, t.inputSchema = some schema ∧
        (lookupField schema "properties").bind asObj = none) :
    t.ValidateArguments args = none := by
  rcases h with h | ⟨schema, hs, hp⟩
  · simp [Tool.ValidateArguments, h]
  · simp [Tool.ValidateArguments, hs, hp]

/-- Witness for C9 at a concrete tool: the required list is ignored because
the schema has no properties object. -/
theorem C9_validation_vacuous_witness :
    requiredOnlyTool.ValidateArguments [] = none :=
  C9_validation_vacuous_without_properties requiredOnlyTool []
    (Or.inr ⟨_, rfl, rfl⟩)

/-- Claim C1 (amended): at the session layer, Start on an Active
PersistentSession returns success, performs no effect at all (no factory
call, no probe, no save) and leaves the record including the client handle
unchanged; the daemon layer, by contrast, refuses a start request for a
server-name whose record is Active with the error already active. -/
theorem C1_start_on_active (env : PSEnv) (s : PSession)
    (hs : s.status = SessionStatus.active)
    (sessions : List (String × DaemonSession)) (serverName : String)
    (cfg : ServerConfig) (d : DaemonSession)
    (hd : lookupSession sessions serverName = some d)
    (hact : d.status = DaemonStatus.active) :
    psStart env s = (Except.ok (), s, []) ∧
    daemonStartSession sessions serverName cfg =
      Except.error ("session " ++ serverName ++ " already active") := by
  constructor
  · simp [psStart, hs]
  · simp [daemonStartSession, hd, hact]

/-- Witness for C1_start_on_active at concrete records. -/
theorem C1_start_on_active_witness :
    psStart trivialEnv activePSession = (Except.ok (), activePSession, []) ∧
    daemonStartSession daemonActiveX "x" plainStdioConfig =
      Except.error ("session " ++ "x" ++ " already active") :=
  C1_start_on_active trivialEnv activePSession rfl daemonActiveX "x"
    plainStdioConfig ⟨"x", true, DaemonStatus.active, plainStdioConfig, "", 0⟩
    rfl rfl

/-- Claim C1, counterexample to the claim as stated: a start request
through the daemon for a server-name whose record is Active does not
return success, it returns the error already active. -/
theorem C1_counterexample :
    daemonStartSession daemonActiveX "x" plainStdioConfig =
      Except.error "session x already active" ∧
    (daemonStartSession daemonActiveX "x" plainStdioConfig).toOption = none := by
  exact ⟨rfl, rfl⟩

/-- Claim C7 (amended): at the session layer, Stop on an Inactive or
Stopped PersistentSession returns success with the record unchanged and is
idempotent under repetition; the daemon layer, by contrast, refuses a stop
for a record not in Active with the error is not active. -/
theorem C7_stop_on_stopped (env : PSEnv) (s : PSession)
    (hs : s.status = SessionStatus.inactive ∨ s.status = SessionStatus.stopped)
    (sessions : List (String × DaemonSession)) (serverName : String)
    (d : DaemonSession) (hd : lookupSession sessions serverName = some d)
    (hna : d.status ≠ DaemonStatus.active) :
    psStop env s = (Except.ok (), s, []) ∧
    psStop env (psStop env s).2.1 = (Except.ok (), s, []) ∧
    daemonStopSession sessions serverName =
      Except.error ("session " ++ serverName ++ " is not active") := by
  have h1 : psStop env s = (Except.ok (), s, []) := by
    rcases hs with h | h <;> simp [psStop, h]
  refine ⟨h1, ?_, ?_⟩
  · rw [h1]
    exact h1
  · simp [daemonStopSession, hd, hna]

/-- Witness for C7_stop_on_stopped at concrete records. -/
theorem C7_stop_on_stopped_witness :
    psStop trivialEnv inactivePSession = (Except.ok (), inactivePSession, []) ∧
    psStop trivialEnv (psStop trivialEnv inactivePSession).2.1 =
      (Except.ok (), inactivePSession, []) ∧
    daemonStopSession daemonInactiveX "x" =
      Except.error ("session " ++ "x" ++ " is not active") :=
  C7_stop_on_stopped trivialEnv inactivePSession (Or.inl rfl) daemonInactiveX
    "x" ⟨"x", false, DaemonStatus.inactive, plainStdioConfig, "", 0⟩ rfl
    (by decide)

/-- Claim C7, counterexample to the claim as stated: a stop request
through the daemon for a record in state Inactive does not return success,
it returns the error is not active. -/
theorem C7_counterexample :
    daemonStopSession daemonInactiveX "x" =
      Except.error "session x is not active" ∧
    (daemonStopSession daemonInactiveX "x").toOption = none := by
  exact ⟨rfl, rfl⟩

/-- Claim C3: Tool.ValidateArguments does implement exactly the claimed
checks and messages on the S6 schema, but the daemon CallTool path never
invokes it (no caller of ValidateArguments exists in the program), so the
argument maps that the claim says are rejected before touching the
transport are in fact forwarded verbatim to the transport. -/
theorem C3_validation_not_wired :
    toolS6.ValidateArguments argsEmpty = some "missing required argument: q" ∧
    toolS6.ValidateArguments argsQExtra = some "unknown argument: extra" ∧
    toolS6.ValidateArguments argsQ = none ∧
    daemonCallTool daemonWithActiveSrv "srv" "t" argsEmpty =
      Except.ok [⟨2, "tools/call", "t", argsEmpty⟩] ∧
    daemonCallTool daemonWithActiveSrv "srv" "t" argsQExtra =
      Except.ok [⟨2, "tools/call", "t", argsQExtra⟩] := by
  exact ⟨rfl, rfl, rfl, rfl, rfl⟩

/-- Claim C5 (amended): the id a request carries is fixed per method —
every tools call carries id 2 and every tools listing id 1 — so the id
sequence observed on the transport repeats rather than increases; the ids
are hard-coded small constants, not a per-session monotonic counter. -/
theorem C5_fixed_request_ids (ops : List StdioOp) :
    idTrace ops = ops.map requestIdOf ∧
    ∀ op ∈ ops,
      (requestMethodOf op = "tools/call" → requestIdOf op = 2) ∧
      (requestMethodOf op = "tools/list" → requestIdOf op = 1) ∧
      requestIdOf op ≤ 3 := by
  refine ⟨rfl, fun op _ => ?_⟩
  cases op <;> simp [requestMethodOf, requestIdOf]

/-- Witness for C5_fixed_request_ids at a concrete operation stream. -/
theorem C5_fixed_request_ids_witness :
    requestIdOf (StdioOp.callToolOp "a" []) = 2 ∧
    requestIdOf StdioOp.listToolsOp = 1 :=
  have h := C5_fixed_request_ids [StdioOp.callToolOp "a" [], StdioOp.listToolsOp]
  ⟨(h.2 (StdioOp.callToolOp "a" []) (List.mem_cons_self _ _)).1 rfl,
    (h.2 StdioOp.listToolsOp (List.mem_cons_of_mem _ (List.mem_cons_self _ _))).2.1 rfl⟩

/-- Claim C5, counterexample to the claim as stated: two successive tool
calls both carry id 2, so the id sequence on the transport is not strictly
monotonically increasing. -/
theorem C5_counterexample :
    idTrace [StdioOp.callToolOp "a" [], StdioOp.callToolOp "b" []] = [2, 2] ∧
    ¬ List.Chain' (fun a b => a < b)
        (idTrace [StdioOp.callToolOp "a" [], StdioOp.callToolOp "b" []]) := by
  refine ⟨rfl, fun h => ?_⟩
  simp [idTrace, requestIdOf, List.chain'_cons] at h

lemma slStep_eq (s : SLSession) (op : SLOp) : slStep s op = (Except.ok (), s) := by
  cases op <;> rfl

lemma slRun_eq (s : SLSession) (ops : List SLOp) :
    slRun s ops = (s, ops.map fun _ => Except.ok ()) := by
  induction ops with
  | nil => rfl
  | cons op rest ih => simp [slRun, slStep_eq, ih]

/-- Claim C10: a stateless session is Active from construction, and any
sequence of Start, Stop and Restart operations returns nil at every step
and leaves the session — in particular its status — unchanged, so it is
never observed in any state other than Active. -/
theorem C10_stateless_always_active (name : String) (cfg : ServerConfig)
    (ops : List SLOp) :
    (NewStatelessSession name cfg).status = SessionStatus.active ∧
    slRun (NewStatelessSession name cfg) ops =
      (NewStatelessSession name cfg, ops.map fun _ => Except.ok ()) :=
  ⟨rfl, slRun_eq _ ops⟩

/-- Claim C4: the metadata file is written under the server name, not the
session id. Saving a record and reloading by its session id fails, loading
by the server name succeeds, and deleting by the session id leaves the
saved file in place; the source names the filename argument sessionID but
SaveSession passes the Name field. -/
theorem C4_save_load_keyed_by_name :
    LoadSession (SaveSession [] infoX) infoX.sessionID =
      Except.error ("session file not found: " ++ infoX.sessionID) ∧
    LoadSession (SaveSession [] infoX) infoX.name = Except.ok infoX ∧
    DeleteSession (SaveSession [] infoX) infoX.sessionID = SaveSession [] infoX ∧
    infoX.sessionID ≠ infoX.name := by
  exact ⟨rfl, rfl, rfl, by decide⟩

lemma configMatches_iff (existing incoming : ServerConfig) :
    configMatches existing incoming = true ↔
      ((existing.type = "http" ∧ incoming.type = "http" ∧
          existing.url = incoming.url) ∨
        (¬(existing.type = "http" ∧ incoming.type = "http") ∧
          existing.command ≠ "" ∧ incoming.command ≠ "" ∧
          existing.command = incoming.command ∧
          existing.args = incoming.args)) := by
  unfold configMatches
  split_ifs with h1 h2 h3 h4
  · simp only [Bool.and_eq_true, beq_iff_eq] at h1
    simp [h1.1, h1.2]
  · simp only [Bool.and_eq_true, beq_iff_eq, not_and] at h1
    simp only [Bool.and_eq_true, bne_iff_ne, ne_eq] at h2
    simp only [bne_iff_ne, ne_eq] at h3
    constructor
    · intro h
      cases h
    · rintro (⟨ha, hb, _⟩ | ⟨_, _, _, hc, _⟩)
      · exact absurd hb (h1 ha)
      · exact h3 hc
  · simp only [Bool.and_eq_true, beq_iff_eq, not_and] at h1
    simp only [bne_iff_ne, ne_eq, not_not] at h3
    simp only [bne_iff_ne, ne_eq] at h4
    constructor
    · intro h
      cases h
    · rintro (⟨ha, hb, _⟩ | ⟨_, _, _, _, hargs⟩)
      · exact absurd hb (h1 ha)
      · exact h4 (by rw [hargs])
  · simp only [Bool.and_eq_true, beq_iff_eq, not_and] at h1
    simp only [Bool.and_eq_true, bne_iff_ne, ne_eq] at h2
    simp only [bne_iff_ne, ne_eq, not_not] at h3
    constructor
    · intro h
      exact Or.inr ⟨fun hab => h1 hab.1 hab.2, h2.1, h2.2, h3, by simpa using h⟩
    · rintro (⟨ha, hb, _⟩ | ⟨_, _, _, _, hargs⟩)
      · exact absurd hb (h1 ha)
      · simpa using hargs
  · simp only [Bool.and_eq_true, beq_iff_eq, not_and] at h1
    simp only [Bool.and_eq_true, bne_iff_ne, ne_eq, not_and] at h2
    constructor
    · intro h
      cases h
    · rintro (⟨ha, hb, _⟩ | ⟨_, hce, hci, _, _⟩)
      · exact absurd hb (h1 ha)
      · exact hci (not_not.mp (h2 hce))

lemma findExisting_ok (env : FSEnv) (st : Store) (serverName : String)
    (info : SessionInfoM) (st1 : Store)
    (h : FindExistingSession env st serverName = (Except.ok info, st1)) :
    st1 = st ∧ LoadSessionByName st serverName = Except.ok info ∧
      ValidateSession env info = Except.ok () := by
  unfold FindExistingSession at h
  split at h
  · simp at h
  next info2 heq =>
    split at h
    · simp at h
    next u heq2 =>
      simp only [Prod.mk.injEq, Except.ok.injEq] at h
      obtain ⟨hinfo, hst⟩ := h
      subst hinfo
      cases u
      exact ⟨hst.symm, heq, heq2⟩

/-- Claim C6 (amended): reattachment proceeds to loading and starting the
stored session only when the validated on-disk spec snapshot is compatible
with the incoming spec — for http, both specs of type http with identical
base URLs; for stdio, both commands nonempty, identical, with identical
argument vectors — and on a spec mismatch the call fails with a
configuration-mismatch error after which the caller falls through to
creating a fresh session; the on-disk record survives a spec mismatch
untouched (deletion happens only when validation of the stored record
fails inside FindExistingSession). -/
theorem C6_reattach_compatibility (fsenv : FSEnv) (psenv : PSEnv) (st : Store)
    (serverName newSessionID : String) (cfg : ServerConfig)
    (sessions : List (String × MSession)) :
    (∀ existing incoming : ServerConfig,
      configMatches existing incoming = true ↔
        ((existing.type = "http" ∧ incoming.type = "http" ∧
            existing.url = incoming.url) ∨
          (¬(existing.type = "http" ∧ incoming.type = "http") ∧
            existing.command ≠ "" ∧ incoming.command ≠ "" ∧
            existing.command = incoming.command ∧
            existing.args = incoming.args))) ∧
    (∀ ps st1 ev,
      tryReattachSession fsenv psenv st serverName cfg = (Except.ok ps, st1, ev) →
        st1 = st ∧
          ∃ info, FindExistingSession fsenv st serverName = (Except.ok info, st) ∧
            configMatches info.config cfg = true) ∧
    (∀ info,
      FindExistingSession fsenv st serverName = (Except.ok info, st) →
        configMatches info.config cfg = false →
          tryReattachSession fsenv psenv st serverName cfg =
            (Except.error "server configuration mismatch", st, [])) ∧
    (∀ e st1 ev,
      tryReattachSession fsenv psenv st serverName cfg = (Except.error e, st1, ev) →
        lookupMSession sessions serverName = none →
        (DetectSessionType cfg = SessionType.persistent ∨
          DetectSessionType cfg = SessionType.hybrid) →
        ShouldAutoStart cfg = false →
        managerGetSession fsenv psenv newSessionID ⟨sessions, st⟩ serverName cfg =
          (Except.ok (MSession.persistentS
              (NewPersistentSessionM serverName cfg newSessionID)),
            ⟨insertMSession sessions serverName
                (MSession.persistentS
                  (NewPersistentSessionM serverName cfg newSessionID)),
              managerSaveSession st1
                (MSession.persistentS
                  (NewPersistentSessionM serverName cfg newSessionID))⟩)) := by
  refine ⟨configMatches_iff, ?_, ?_, ?_⟩
  · intro ps st1 ev h
    unfold tryReattachSession at h
    split at h
    · simp at h
    next info st2 heq =>
      split at h
      · simp at h
      next hmatch =>
        have hcm : configMatches info.config cfg = true := by
          simpa using hmatch
        have hok := findExisting_ok fsenv st serverName info st2 heq
        split at h
        · simp only [Prod.mk.injEq, Except.ok.injEq] at h
          obtain ⟨-, hst, -⟩ := h
          exact ⟨hst ▸ hok.1, info, hok.1 ▸ heq, hcm⟩
        · simp at h
  · intro info hfind hcm
    unfold tryReattachSession
    rw [hfind]
    simp [hcm]
  · intro e st1 ev h hlook hdet hauto
    unfold managerGetSession
    rw [hlook]
    simp only []
    rw [if_pos hdet, h]
    rcases hdet with hd | hd <;> simp [managerCreateNew, hd, hauto]

/-- Claim C6, counterexample to the claim as stated: on a spec mismatch the
reattachment attempt fails with the configuration-mismatch error but the
on-disk record is not deleted — the store comes back unchanged with the
record still present. -/
theorem C6_counterexample :
    tryReattachSession fsenvDead trivialEnv storeZ "z" cfgB =
      (Except.error "server configuration mismatch", storeZ, []) ∧
    storeLookup storeZ (sessionFilename storedInfoZ.name) = some storedInfoZ := by
  exact ⟨rfl, rfl⟩

/-- Witness for C6_reattach_compatibility at a concrete mismatching pair. -/
theorem C6_reattach_compatibility_witness :
    tryReattachSession fsenvDead trivialEnv storeZ "z" cfgB =
      (Except.error "server configuration mismatch", storeZ, []) ∧
    managerGetSession fsenvDead trivialEnv "z-new" ⟨[], storeZ⟩ "z" cfgB =
      (Except.ok (MSession.persistentS (NewPersistentSessionM "z" cfgB "z-new")),
        ⟨insertMSession [] "z"
            (MSession.persistentS (NewPersistentSessionM "z" cfgB "z-new")),
          managerSaveSession storeZ
            (MSession.persistentS (NewPersistentSessionM "z" cfgB "z-new"))⟩) := by
  have h := C6_reattach_compatibility fsenvDead trivialEnv storeZ "z" "z-new" cfgB []
  have hmis := h.2.2.1 storedInfoZ rfl (by decide)
  exact ⟨hmis, h.2.2.2 "server configuration mismatch" storeZ [] hmis rfl
    (Or.inr (by decide)) (by decide)⟩

end McpCli
